import Mathlib

/-!
Verification of the aMAZE-AI authentication session lifecycle
(`auth.service.ts`, `AuthContext.tsx`, `user.types.ts`).

The repository code is shallowly embedded: Firestore is an association list
of user documents together with a schedule of transient write failures,
Firebase Auth results are passed in as explicit `Except` values (the
credential provider is an external collaborator), `Timestamp.now()` is an
explicit `now : Nat` parameter, and each `async` operation becomes a pure
function threading the store state.
-/

set_option autoImplicit false

namespace AmazeAI

/-- The `role` union type of `user.types.ts`: one of creator, consumer, admin. -/
inductive Role where
  | creator
  | consumer
  | admin
deriving Repr, DecidableEq

/-- The `themePreference` union type of `user.types.ts`: light or dark. -/
inductive Theme where
  | light
  | dark
deriving Repr, DecidableEq

/-- The `User` interface of `user.types.ts`.  Timestamps are modelled as `Nat`. -/
structure User where
  uid : String
  email : String
  displayName : String
  photoURL : Option String
  role : Role
  interests : Option (List String)
  niche : Option String
  targetAudience : Option String
  themePreference : Theme
  createdAt : Nat
  updatedAt : Nat
deriving Repr, DecidableEq

/-- A raw credential assertion: the fields of Firebase Auth's `User` object
that the repository reads (`uid`, `email`, `displayName`, `photoURL`, all of
which except `uid` may be `null`). -/
structure FirebaseUser where
  uid : String
  email : Option String
  displayName : Option String
  photoURL : Option String
deriving Repr, DecidableEq

/-- JavaScript `x || ''` on a nullable string: `null` and `''` are falsy. -/
def orEmpty (x : Option String) : String :=
  match x with
  | none => ""
  | some s => s

/-- JavaScript `x || undefined` on a nullable string: an empty string is falsy
and collapses to `undefined`. -/
def orUndefined (x : Option String) : Option String :=
  match x with
  | none => none
  | some s => if s = "" then none else some s

/-- First-match lookup in a list of `(uid, document)` pairs: the semantics of
`getDoc(doc(db, 'users', uid))`. -/
def findDoc : List (String × User) → String → Option User
  | [], _ => none
  | (k, v) :: rest, key => if k = key then some v else findDoc rest key

/-- Upsert in a list of `(uid, document)` pairs: the semantics of
`setDoc(doc(db, 'users', uid), u)` (whole-document replace-or-insert). -/
def putDoc : List (String × User) → String → User → List (String × User)
  | [], key, u => [(key, u)]
  | (k, v) :: rest, key, u =>
    if k = key then (key, u) :: rest else (k, v) :: putDoc rest key u

/-- Number of documents stored under a given key. -/
def countDocs (l : List (String × User)) (key : String) : Nat :=
  (l.filter (fun kv => kv.1 = key)).length

/-- The Profile Store: the `users` Firestore collection, plus a schedule of
transient write failures (`putFailures` upcoming `setDoc` calls reject, as the
external store may do; the document data is untouched by a failed write). -/
structure Firestore where
  docs : List (String × User)
  putFailures : Nat
deriving Repr, DecidableEq

/-- `await getDoc(userRef)`: read the document stored under `key`. -/
def getDocOf (s : Firestore) (key : String) : Option User :=
  findDoc s.docs key

/-- `await setDoc(userRef, u)`: one write attempt.  Returns the success flag
and the store afterwards; a scheduled transient failure is consumed by the
attempt and leaves the documents unchanged. -/
def setDocOf (s : Firestore) (key : String) (u : User) : Bool × Firestore :=
  match s.putFailures with
  | 0 => (true, { docs := putDoc s.docs key u, putFailures := 0 })
  | Nat.succ n => (false, { docs := s.docs, putFailures := n })

/-- The Firestore error code a rejected `setDoc` carries (a transient-outage
code, which is not one of the `auth/...` codes). -/
def storeErrorCode : String := "unavailable"

/-- The `newUser` record literal the service builds from a raw credential:
uid/email/displayName/photoURL copied from the credential (with JavaScript
falsy coercions), default role `creator`, default theme `light`, both
timestamps `Timestamp.now()`, and no optional profile attributes. -/
def freshUser (fb : FirebaseUser) (now : Nat) : User :=
  { uid := fb.uid
    email := orEmpty fb.email
    displayName := orEmpty fb.displayName
    photoURL := orUndefined fb.photoURL
    role := Role.creator
    interests := none
    niche := none
    targetAudience := none
    themePreference := Theme.light
    createdAt := now
    updatedAt := now }

/-- `convertFirebaseUserToUser` (auth.service.ts): look the uid up in the
`users` collection; if the document exists return the stored data, otherwise
synthesize a new `User` with default role `creator` and theme `light` and
`setDoc` it.  The error case carries the raw error code of the failed store
write (the caller wraps it); the updated store is returned alongside. -/
def convertFirebaseUserToUser (fb : FirebaseUser) (s : Firestore) (now : Nat) :
    Except String User × Firestore :=
  match getDocOf s fb.uid with
  | some u => (Except.ok u, s)
  | none =>
    let newUser : User := freshUser fb now
    match setDocOf s fb.uid newUser with
    | (true, s2) => (Except.ok newUser, s2)
    | (false, s2) => (Except.error storeErrorCode, s2)

/-- `AuthService.getAuthErrorMessage`: the switch mapping Firebase error codes
to user-facing messages, with a catch-all default. -/
def getAuthErrorMessage (errorCode : String) : String :=
  if errorCode = "auth/invalid-email" then "The email address is invalid."
  else if errorCode = "auth/user-disabled" then "This account has been disabled."
  else if errorCode = "auth/user-not-found" then "No account found with this email address."
  else if errorCode = "auth/wrong-password" then "Incorrect password. Please try again."
  else if errorCode = "auth/email-already-in-use" then "An account with this email already exists."
  else if errorCode = "auth/weak-password" then "Password should be at least 6 characters."
  else if errorCode = "auth/operation-not-allowed" then "This sign-in method is not enabled."
  else if errorCode = "auth/popup-closed-by-user" then "Sign-in popup was closed before completing."
  else if errorCode = "auth/cancelled-popup-request" then "Only one popup request is allowed at a time."
  else if errorCode = "auth/network-request-failed" then "Network error. Please check your connection."
  else if errorCode = "auth/too-many-requests" then "Too many failed attempts. Please try again later."
  else if errorCode = "auth/invalid-credential" then "Invalid credentials. Please check your email and password."
  else "An error occurred during authentication. Please try again."

/-- The error codes with a dedicated case in `getAuthErrorMessage`. -/
def enumeratedAuthCodes : List String :=
  ["auth/invalid-email", "auth/user-disabled", "auth/user-not-found",
   "auth/wrong-password", "auth/email-already-in-use", "auth/weak-password",
   "auth/operation-not-allowed", "auth/popup-closed-by-user",
   "auth/cancelled-popup-request", "auth/network-request-failed",
   "auth/too-many-requests", "auth/invalid-credential"]

/-- The catch-all default message of `getAuthErrorMessage`. -/
def defaultAuthMessage : String :=
  "An error occurred during authentication. Please try again."

/-- `AuthService.signInWithGoogle`: the popup outcome is passed in as
`pr` (the external provider's verdict: a raw credential or an error code);
on success the user is resolved through `convertFirebaseUserToUser`, and any
thrown code is wrapped by `getAuthErrorMessage`. -/
def signInWithGoogle (pr : Except String FirebaseUser) (s : Firestore) (now : Nat) :
    Except String User × Firestore :=
  match pr with
  | Except.error code => (Except.error (getAuthErrorMessage code), s)
  | Except.ok fb =>
    match convertFirebaseUserToUser fb s now with
    | (Except.ok u, s2) => (Except.ok u, s2)
    | (Except.error code, s2) => (Except.error (getAuthErrorMessage code), s2)

/-- `AuthService.signInWithEmail`: same shape as Google sign-in; `pr` is the
outcome of `signInWithEmailAndPassword(auth, email, password)`. -/
def signInWithEmail (pr : Except String FirebaseUser) (s : Firestore) (now : Nat) :
    Except String User × Firestore :=
  match pr with
  | Except.error code => (Except.error (getAuthErrorMessage code), s)
  | Except.ok fb =>
    match convertFirebaseUserToUser fb s now with
    | (Except.ok u, s2) => (Except.ok u, s2)
    | (Except.error code, s2) => (Except.error (getAuthErrorMessage code), s2)

/-- `AuthService.signUpWithEmail`: `pr` is the outcome of
`createUserWithEmailAndPassword` followed by `updateProfile`; on success a new
`User` with default role `creator`, theme `light` and the supplied display
name is written to the store unconditionally, and any thrown code is wrapped
by `getAuthErrorMessage`. -/
def signUpWithEmail (pr : Except String FirebaseUser) (displayName : String)
    (s : Firestore) (now : Nat) : Except String User × Firestore :=
  match pr with
  | Except.error code => (Except.error (getAuthErrorMessage code), s)
  | Except.ok fb =>
    let newUser : User := { freshUser fb now with displayName := displayName }
    match setDocOf s fb.uid newUser with
    | (true, s2) => (Except.ok newUser, s2)
    | (false, s2) => (Except.error (getAuthErrorMessage storeErrorCode), s2)

/-- `AuthService.getCurrentUser`: synchronous read of `auth.currentUser`;
`null` when no credential session is active, otherwise a `User` synthesized
directly from the raw credential with default role and theme (the Profile
Store is not consulted — the function takes no store argument). -/
def getCurrentUser (currentUser : Option FirebaseUser) (now : Nat) : Option User :=
  match currentUser with
  | none => none
  | some fb => some (freshUser fb now)

/-- The body of the listener `AuthService.onAuthStateChanged` installs: on a
raw-credential event it resolves the profile and invokes the callback with
the resolved user; a resolution error is caught and the callback is invoked
with `null`; a no-credential event invokes the callback with `null`.  The
returned list is the sequence of callback invocations the event produces. -/
def authStateHandler (fbOpt : Option FirebaseUser) (s : Firestore) (now : Nat) :
    List (Option User) × Firestore :=
  match fbOpt with
  | none => ([none], s)
  | some fb =>
    match convertFirebaseUserToUser fb s now with
    | (Except.ok u, s2) => ([some u], s2)
    | (Except.error _, s2) => ([none], s2)

/-- The session state held by `AuthProvider` (AuthContext.tsx): the current
user (or none) and the loading flag of the initial restoration check. -/
structure SessionState where
  user : Option User
  loading : Bool
deriving Repr, DecidableEq

/-- The subscriber update of `AuthProvider`: on every auth-state callback the
provider runs `setUser(user); setLoading(false)`. -/
def applyAuthChange (uOpt : Option User) : SessionState :=
  { user := uOpt, loading := false }

/-- `AuthProvider.signInWithGoogle`: awaits the service call; on success
`setUser(user)` and the resolved user is returned; a thrown error propagates
to the caller with the session state untouched. -/
def ctxSignInWithGoogle (pr : Except String FirebaseUser) (s : Firestore)
    (now : Nat) (st : SessionState) : Except String User × Firestore × SessionState :=
  match signInWithGoogle pr s now with
  | (Except.ok u, s2) => (Except.ok u, s2, { st with user := some u })
  | (Except.error m, s2) => (Except.error m, s2, st)

/-- `AuthProvider.signInWithEmail`: same shape as the Google path. -/
def ctxSignInWithEmail (pr : Except String FirebaseUser) (s : Firestore)
    (now : Nat) (st : SessionState) : Except String User × Firestore × SessionState :=
  match signInWithEmail pr s now with
  | (Except.ok u, s2) => (Except.ok u, s2, { st with user := some u })
  | (Except.error m, s2) => (Except.error m, s2, st)

/-- `AuthProvider.signUpWithEmail`: same shape as the sign-in paths. -/
def ctxSignUpWithEmail (pr : Except String FirebaseUser) (displayName : String)
    (s : Firestore) (now : Nat) (st : SessionState) :
    Except String User × Firestore × SessionState :=
  match signUpWithEmail pr displayName s now with
  | (Except.ok u, s2) => (Except.ok u, s2, { st with user := some u })
  | (Except.error m, s2) => (Except.error m, s2, st)

/-- `firebaseSignOut(auth)` together with the provider's own change events:
revoking an active credential clears it and fires the provider's `onChange`
with `null`; revoking when no credential is active changes nothing and fires
no event (the external provider notifies exactly on credential-state change,
per the spec's Credential Provider interface); a network failure rejects with
`auth/network-request-failed` and leaves the credential untouched. -/
def firebaseSignOut (netFail : Bool) (p : Option FirebaseUser) :
    Except String (Option FirebaseUser × List (Option FirebaseUser)) :=
  if netFail then Except.error "auth/network-request-failed"
  else
    match p with
    | some _ => Except.ok (none, [none])
    | none => Except.ok (none, [])

/-- `AuthProvider.signOut`: awaits `authService.signOut()` (which wraps a
thrown code via `getAuthErrorMessage`); on success `setUser(null)`; on failure
the error propagates with the session, the provider credential and the event
stream untouched. -/
def ctxSignOut (netFail : Bool) (p : Option FirebaseUser) (st : SessionState) :
    Except String Unit × Option FirebaseUser × List (Option FirebaseUser) × SessionState :=
  match firebaseSignOut netFail p with
  | Except.ok (p2, evs) => (Except.ok (), p2, evs, { st with user := none })
  | Except.error code => (Except.error (getAuthErrorMessage code), p, [], st)

/-- The value the `AuthContext.Provider` supplies (its data fields; the four
operation closures are modelled by the `ctx...` functions above). -/
structure AuthContextValue where
  user : Option User
  loading : Bool
deriving Repr, DecidableEq

/-- `useAuth` (AuthContext.tsx): reads the context, which is `undefined`
outside an `AuthProvider`; in that case it throws, otherwise it returns the
context value. -/
def useAuth (ctx : Option AuthContextValue) : Except String AuthContextValue :=
  match ctx with
  | none => Except.error "useAuth must be used within an AuthProvider"
  | some v => Except.ok v

/-- The loop body of `retryWithBackoff` (the repository's generic
exponential-backoff helper): `attempt` is the current loop index, the second
argument the remaining iterations.  Returns the success flag, the final store
and the list of backoff delays slept (`baseDelay * 2 ^ attempt` before each
re-attempt). -/
def retryGo (op : Firestore → Bool × Firestore) (baseDelay : Nat) :
    Nat → Nat → Firestore → Bool × Firestore × List Nat
  | _, 0, s => (false, s, [])
  | attempt, Nat.succ rem, s =>
    match op s with
    | (true, s2) => (true, s2, [])
    | (false, s2) =>
      if rem = 0 then (false, s2, [])
      else
        let d := baseDelay * 2 ^ attempt
        let r := retryGo op baseDelay (attempt + 1) rem s2
        (r.1, r.2.1, d :: r.2.2)

/-- `retryWithBackoff(operation, maxRetries, baseDelay)`: run the operation up
to `maxRetries` times, sleeping `baseDelay * 2 ^ attempt` between attempts,
and rethrow the last failure once attempts are exhausted. -/
def retryWithBackoff (op : Firestore → Bool × Firestore) (maxRetries baseDelay : Nat)
    (s : Firestore) : Bool × Firestore × List Nat :=
  retryGo op baseDelay 0 maxRetries s

/-- Modelled from the spec: the resolve-or-create protocol as §5/§7 describe
it, with the Profile Store write wrapped in the generic backoff-retry helper
(3 attempts, base delay 1 unit) and `StoreUnavailable` surfaced only after
all attempts are exhausted.  The repository's `convertFirebaseUserToUser`
does not do this; this definition exists to compare the two. -/
def convertFirebaseUserToUserSpecRetry (fb : FirebaseUser) (s : Firestore) (now : Nat) :
    Except String User × Firestore :=
  match getDocOf s fb.uid with
  | some u => (Except.ok u, s)
  | none =>
    let newUser : User := freshUser fb now
    match retryWithBackoff (fun st => setDocOf st fb.uid newUser) 3 1 s with
    | (true, s2, _) => (Except.ok newUser, s2)
    | (false, s2, _) => (Except.error storeErrorCode, s2)

/-- The subscription machine of `onAuthStateChanged`: the listener wrapper is
an `async` closure, so a raw-credential event only enqueues a pending profile
resolution (the body suspends at the `getDoc` await), while a no-credential
event invokes the callback before any suspension point.  Unsubscribing
removes the Firebase listener (`active := false`) but does not cancel pending
resolutions; when a pending resolution completes, the callback is invoked
unconditionally.  `afterUnsub` records the invocations delivered while the
listener was already removed. -/
structure SubState where
  active : Bool
  pending : List FirebaseUser
  delivered : List (Option User)
  afterUnsub : List (Option User)
  store : Firestore
  now : Nat
deriving Repr, DecidableEq

/-- The interleaved events the subscription machine processes: a provider
credential-change event, the subscriber's unsubscribe call, and the
completion of the oldest pending profile resolution. -/
inductive SubEv where
  | fire (fb : Option FirebaseUser)
  | unsub
  | complete
deriving Repr, DecidableEq

/-- Invoke the subscriber callback with `d`, recording it under `afterUnsub`
when the unsubscribe call has already returned. -/
def deliver (st : SubState) (d : Option User) : SubState :=
  { st with
    delivered := st.delivered ++ [d]
    afterUnsub := if st.active then st.afterUnsub else st.afterUnsub ++ [d] }

/-- One step of the subscription machine (see `SubState`). -/
def subStep (st : SubState) : SubEv → SubState
  | SubEv.fire none => if st.active then deliver st none else st
  | SubEv.fire (some fb) =>
    if st.active then { st with pending := st.pending ++ [fb] } else st
  | SubEv.unsub => { st with active := false }
  | SubEv.complete =>
    match st.pending with
    | [] => st
    | fb :: rest =>
      match convertFirebaseUserToUser fb st.store st.now with
      | (Except.ok u, s2) => deliver { st with pending := rest, store := s2 } (some u)
      | (Except.error _, s2) => deliver { st with pending := rest, store := s2 } none

/-- Run the subscription machine over a list of events. -/
def subRun (evs : List SubEv) (st : SubState) : SubState :=
  evs.foldl subStep st

/-! Concrete inputs used by counterexamples and witnesses. -/

/-- A concrete raw credential assertion. -/
def fb0 : FirebaseUser :=
  { uid := "u1", email := some "a@x.com", displayName := some "Ada", photoURL := none }

/-- The user record resolve-or-create synthesizes from `fb0` at time 0. -/
def u1 : User := freshUser fb0 0

/-- An empty, healthy Profile Store. -/
def s0 : Firestore := { docs := [], putFailures := 0 }

/-- An empty Profile Store whose next write attempt fails transiently. -/
def s1 : Firestore := { docs := [], putFailures := 1 }

/-- A healthy Profile Store already holding the document for `u1`. -/
def sHasU1 : Firestore := { docs := [("u1", u1)], putFailures := 0 }

/-- An authenticated session state holding `u1`. -/
def st0 : SessionState := { user := some u1, loading := false }

/-- A live subscription over the store `sHasU1`. -/
def subInit : SubState :=
  { active := true, pending := [], delivered := [], afterUnsub := [],
    store := sHasU1, now := 0 }

/-! Helper lemmas about the Profile Store model. -/

theorem findDoc_putDoc_self (l : List (String × User)) (key : String) (u : User) :
    findDoc (putDoc l key u) key = some u := by
  induction l with
  | nil => simp [putDoc, findDoc]
  | cons hd tl ih =>
    obtain ⟨k, v⟩ := hd
    by_cases hk : k = key
    · simp [putDoc, findDoc, hk]
    · simp [putDoc, findDoc, hk, ih]

theorem countDocs_eq_zero_of_findDoc_none (l : List (String × User)) (key : String)
    (h : findDoc l key = none) : countDocs l key = 0 := by
  induction l with
  | nil => simp [countDocs]
  | cons hd tl ih =>
    obtain ⟨k, v⟩ := hd
    by_cases hk : k = key
    · simp [findDoc, hk] at h
    · simp [findDoc, hk] at h
      simp [countDocs, List.filter, hk] at ih ⊢
      exact ih h

theorem countDocs_putDoc_of_findDoc_none (l : List (String × User)) (key : String)
    (u : User) (h : findDoc l key = none) : countDocs (putDoc l key u) key = 1 := by
  induction l with
  | nil => simp [putDoc, countDocs, List.filter]
  | cons hd tl ih =>
    obtain ⟨k, v⟩ := hd
    by_cases hk : k = key
    · simp [findDoc, hk] at h
    · simp [findDoc, hk] at h
      simp [putDoc, hk, countDocs, List.filter] at ih ⊢
      exact ih h

/-- Unfolding `convertFirebaseUserToUser` when the document already exists. -/
theorem convert_found (fb : FirebaseUser) (s : Firestore) (now : Nat) (u : User)
    (h : getDocOf s fb.uid = some u) :
    convertFirebaseUserToUser fb s now = (Except.ok u, s) := by
  unfold convertFirebaseUserToUser
  rw [h]

/-- Unfolding `convertFirebaseUserToUser` on a fresh uid with a healthy store:
one successful write of the synthesized default user. -/
theorem convert_fresh (fb : FirebaseUser) (s : Firestore) (now : Nat)
    (hfresh : getDocOf s fb.uid = none) (hok : s.putFailures = 0) :
    convertFirebaseUserToUser fb s now =
      (Except.ok (freshUser fb now),
       { docs := putDoc s.docs fb.uid (freshUser fb now), putFailures := 0 }) := by
  unfold convertFirebaseUserToUser
  rw [hfresh]
  simp [setDocOf, hok]

/-- Unfolding `convertFirebaseUserToUser` on a fresh uid when the store write
fails: the single attempt consumes one scheduled failure and the raw store
error code is surfaced at once. -/
theorem convert_fresh_fail (fb : FirebaseUser) (s : Firestore) (now : Nat) (n : Nat)
    (hfresh : getDocOf s fb.uid = none) (hfail : s.putFailures = n + 1) :
    convertFirebaseUserToUser fb s now =
      (Except.error storeErrorCode, { docs := s.docs, putFailures := n }) := by
  unfold convertFirebaseUserToUser
  rw [hfresh]
  simp [setDocOf, hfail]

set_option maxHeartbeats 1000000 in
/-- Totality of the error-code switch: every code maps to a nonempty message,
and codes outside the enumerated cases map to the catch-all default. -/
theorem getAuthErrorMessage_total (code : String) :
    getAuthErrorMessage code ≠ "" ∧
    (code ∉ enumeratedAuthCodes → getAuthErrorMessage code = defaultAuthMessage) := by
  unfold getAuthErrorMessage
  split_ifs <;>
    first
      | exact ⟨by decide, fun _ => rfl⟩
      | exact ⟨by decide, fun hn => by subst_vars; exact absurd (by decide) hn⟩

/-! Claim theorems. -/

/-- C1: for a raw credential whose identifier has no record in the Profile
Store, each operation yielding an Authenticated transition (Google sign-in,
email sign-in, sign-up, and the restoration handler) produces exactly one
persisted Identity record keyed by that identifier, with role `creator` and
theme `light`, and the returned store already contains the record. -/
theorem C1_fresh_identity_created_with_defaults
    (fb : FirebaseUser) (s : Firestore) (now : Nat) (dn : String)
    (hfresh : getDocOf s fb.uid = none) (hok : s.putFailures = 0) :
    ∃ u s2 u2 s3,
      u.uid = fb.uid ∧ u.role = Role.creator ∧ u.themePreference = Theme.light ∧
      convertFirebaseUserToUser fb s now = (Except.ok u, s2) ∧
      getDocOf s2 fb.uid = some u ∧ countDocs s2.docs fb.uid = 1 ∧
      signInWithGoogle (Except.ok fb) s now = (Except.ok u, s2) ∧
      signInWithEmail (Except.ok fb) s now = (Except.ok u, s2) ∧
      authStateHandler (some fb) s now = ([some u], s2) ∧
      u2.uid = fb.uid ∧ u2.role = Role.creator ∧ u2.themePreference = Theme.light ∧
      u2.displayName = dn ∧
      signUpWithEmail (Except.ok fb) dn s now = (Except.ok u2, s3) ∧
      getDocOf s3 fb.uid = some u2 ∧ countDocs s3.docs fb.uid = 1 := by
  have hc := convert_fresh fb s now hfresh hok
  refine ⟨freshUser fb now, ⟨putDoc s.docs fb.uid (freshUser fb now), 0⟩,
    { freshUser fb now with displayName := dn },
    ⟨putDoc s.docs fb.uid { freshUser fb now with displayName := dn }, 0⟩,
    rfl, rfl, rfl, hc, ?_, ?_, ?_, ?_, ?_, rfl, rfl, rfl, rfl, ?_, ?_, ?_⟩
  · exact findDoc_putDoc_self s.docs fb.uid (freshUser fb now)
  · exact countDocs_putDoc_of_findDoc_none s.docs fb.uid (freshUser fb now) hfresh
  · simp [signInWithGoogle, hc]
  · simp [signInWithEmail, hc]
  · simp [authStateHandler, hc]
  · simp [signUpWithEmail, setDocOf, hok]
  · exact findDoc_putDoc_self s.docs fb.uid _
  · exact countDocs_putDoc_of_findDoc_none s.docs fb.uid _ hfresh

/-- Witness for C1 at the concrete credential `fb0`, the empty store `s0`,
time 0 and display name Dana. -/
theorem C1_fresh_identity_created_with_defaults_witness :
    ∃ u s2 u2 s3,
      u.uid = fb0.uid ∧ u.role = Role.creator ∧ u.themePreference = Theme.light ∧
      convertFirebaseUserToUser fb0 s0 0 = (Except.ok u, s2) ∧
      getDocOf s2 fb0.uid = some u ∧ countDocs s2.docs fb0.uid = 1 ∧
      signInWithGoogle (Except.ok fb0) s0 0 = (Except.ok u, s2) ∧
      signInWithEmail (Except.ok fb0) s0 0 = (Except.ok u, s2) ∧
      authStateHandler (some fb0) s0 0 = ([some u], s2) ∧
      u2.uid = fb0.uid ∧ u2.role = Role.creator ∧ u2.themePreference = Theme.light ∧
      u2.displayName = "Dana" ∧
      signUpWithEmail (Except.ok fb0) "Dana" s0 0 = (Except.ok u2, s3) ∧
      getDocOf s3 fb0.uid = some u2 ∧ countDocs s3.docs fb0.uid = 1 :=
  C1_fresh_identity_created_with_defaults fb0 s0 0 "Dana" rfl rfl

/-- C2: for a raw credential whose identifier already has a record in the
Profile Store, resolve-or-create (as used by the Google sign-in, the email
sign-in and the restoration handler) returns the stored Identity exactly as
stored, and the Profile Store is returned verbatim (no write). -/
theorem C2_existing_identity_returned_verbatim
    (fb : FirebaseUser) (s : Firestore) (now : Nat) (u : User)
    (hfound : getDocOf s fb.uid = some u) :
    convertFirebaseUserToUser fb s now = (Except.ok u, s) ∧
    signInWithGoogle (Except.ok fb) s now = (Except.ok u, s) ∧
    signInWithEmail (Except.ok fb) s now = (Except.ok u, s) ∧
    authStateHandler (some fb) s now = ([some u], s) := by
  have hc := convert_found fb s now u hfound
  exact ⟨hc, by simp [signInWithGoogle, hc], by simp [signInWithEmail, hc],
    by simp [authStateHandler, hc]⟩

/-- Witness for C2 at the concrete credential `fb0` against the store
`sHasU1`, which already holds the record `u1`. -/
theorem C2_existing_identity_returned_verbatim_witness :
    convertFirebaseUserToUser fb0 sHasU1 0 = (Except.ok u1, sHasU1) ∧
    signInWithGoogle (Except.ok fb0) sHasU1 0 = (Except.ok u1, sHasU1) ∧
    signInWithEmail (Except.ok fb0) sHasU1 0 = (Except.ok u1, sHasU1) ∧
    authStateHandler (some fb0) sHasU1 0 = ([some u1], sHasU1) :=
  C2_existing_identity_returned_verbatim fb0 sHasU1 0 u1 rfl

/-- C4: `getCurrentUser` is a synchronous read that returns none exactly when
no credential session is active; on an active credential it returns the
Identity synthesized directly from the raw credential with default role
`creator` and theme `light` (the function takes no Profile Store argument, so
the store is never consulted). -/
theorem C4_getCurrentUser_synthesizes_defaults :
    ∀ (cu : Option FirebaseUser) (now : Nat),
      (getCurrentUser cu now = none ↔ cu = none) ∧
      (∀ fb, getCurrentUser (some fb) now = some (freshUser fb now)) ∧
      (∀ fb, (freshUser fb now).role = Role.creator ∧
        (freshUser fb now).themePreference = Theme.light ∧
        (freshUser fb now).uid = fb.uid) := by
  intro cu now
  refine ⟨?_, fun fb => rfl, fun fb => ⟨rfl, rfl, rfl⟩⟩
  cases cu <;> simp [getCurrentUser]

/-- C10: `useAuth` outside an `AuthProvider` throws exactly the documented
error message, and inside a provider (a defined context value) it never
throws — it returns the context value. -/
theorem C10_useAuth_guard :
    useAuth none = Except.error "useAuth must be used within an AuthProvider" ∧
    ∀ v, useAuth (some v) = Except.ok v :=
  ⟨rfl, fun _ => rfl⟩

/-- C3 counterexample: a Profile Store failure during the restoration path
does not preserve the session state.  With the session authenticated as `u1`
and a store whose next write fails, a credential-change event for `fb0` makes
the handler invoke the subscriber callback (with none), and the resulting
session state differs from the prior one — refuting the claim that the state
is preserved and no notification is emitted. -/
theorem C3_restoration_failure_counterexample :
    authStateHandler (some fb0) s1 0 = ([none], ⟨[], 0⟩) ∧
    (authStateHandler (some fb0) s1 0).1 ≠ [] ∧
    applyAuthChange none ≠ st0 := by
  refine ⟨rfl, by decide, by decide⟩

/-- C3 (amended): failing sign-in, sign-up and sign-out operations leave the
session state unchanged, emit no provider event, and report the classified
error to the caller; a Profile Store failure during the restoration path,
however, is caught by the handler, which notifies subscribers with none,
putting the session into the unauthenticated state instead of preserving it. -/
theorem C3_failure_leaves_state_except_restoration :
    ∀ (code : String) (s : Firestore) (now : Nat) (st : SessionState)
      (dn : String) (p : Option FirebaseUser),
      ctxSignInWithGoogle (Except.error code) s now st =
        (Except.error (getAuthErrorMessage code), s, st) ∧
      ctxSignInWithEmail (Except.error code) s now st =
        (Except.error (getAuthErrorMessage code), s, st) ∧
      ctxSignUpWithEmail (Except.error code) dn s now st =
        (Except.error (getAuthErrorMessage code), s, st) ∧
      ctxSignOut true p st =
        (Except.error (getAuthErrorMessage "auth/network-request-failed"), p, [], st) ∧
      (∀ fb n, getDocOf s fb.uid = none → s.putFailures = n + 1 →
        authStateHandler (some fb) s now = ([none], ⟨s.docs, n⟩) ∧
        applyAuthChange none = ⟨none, false⟩) := by
  intro code s now st dn p
  refine ⟨rfl, rfl, rfl, rfl, ?_⟩
  intro fb n hfresh hfail
  exact ⟨by simp [authStateHandler, convert_fresh_fail fb s now n hfresh hfail], rfl⟩

/-- Witness for the amended C3 at a concrete rejected sign-in and a concrete
store failure during the restoration path. -/
theorem C3_failure_leaves_state_except_restoration_witness :
    ctxSignInWithGoogle (Except.error "auth/wrong-password") s1 0 st0 =
      (Except.error (getAuthErrorMessage "auth/wrong-password"), s1, st0) ∧
    authStateHandler (some fb0) s1 0 = ([none], ⟨s1.docs, 0⟩) :=
  ⟨(C3_failure_leaves_state_except_restoration "auth/wrong-password" s1 0 st0 "D" none).1,
   ((C3_failure_leaves_state_except_restoration "auth/wrong-password" s1 0 st0 "D" none).2.2.2.2
     fb0 0 rfl rfl).1⟩

/-- C5 counterexample: the Profile Store write of resolve-or-create is not
wrapped in the backoff-retry helper.  With one transient write failure
scheduled, the repository's `convertFirebaseUserToUser` surfaces the store
error after its single attempt, while the spec's retry-wrapped variant (same
inputs, 3 attempts) succeeds and persists the record — refuting the claim
that failure is surfaced only after all attempts are exhausted. -/
theorem C5_no_retry_counterexample :
    convertFirebaseUserToUser fb0 s1 0 = (Except.error storeErrorCode, ⟨[], 0⟩) ∧
    convertFirebaseUserToUserSpecRetry fb0 s1 0 = (Except.ok u1, ⟨[("u1", u1)], 0⟩) := by
  exact ⟨rfl, rfl⟩

/-- C5 (amended): Profile Store writes during resolve-or-create are performed
with a single attempt and no retry wrapper; a store failure is surfaced to
the caller immediately after the first failed attempt (one scheduled failure
is consumed), and the sign-in callers wrap it as the catch-all auth error
message rather than a dedicated StoreUnavailable kind. -/
theorem C5_store_write_single_attempt
    (fb : FirebaseUser) (s : Firestore) (now : Nat) (n : Nat)
    (hfresh : getDocOf s fb.uid = none) (hfail : s.putFailures = n + 1) :
    convertFirebaseUserToUser fb s now =
      (Except.error storeErrorCode, ⟨s.docs, n⟩) ∧
    signInWithGoogle (Except.ok fb) s now =
      (Except.error (getAuthErrorMessage storeErrorCode), ⟨s.docs, n⟩) ∧
    signInWithEmail (Except.ok fb) s now =
      (Except.error (getAuthErrorMessage storeErrorCode), ⟨s.docs, n⟩) ∧
    getAuthErrorMessage storeErrorCode = defaultAuthMessage := by
  have hc := convert_fresh_fail fb s now n hfresh hfail
  exact ⟨hc, by simp [signInWithGoogle, hc], by simp [signInWithEmail, hc], rfl⟩

/-- Witness for the amended C5 at the concrete credential `fb0` and the store
`s1` with one scheduled write failure. -/
theorem C5_store_write_single_attempt_witness :
    convertFirebaseUserToUser fb0 s1 0 =
      (Except.error storeErrorCode, ⟨s1.docs, 0⟩) ∧
    signInWithGoogle (Except.ok fb0) s1 0 =
      (Except.error (getAuthErrorMessage storeErrorCode), ⟨s1.docs, 0⟩) ∧
    signInWithEmail (Except.ok fb0) s1 0 =
      (Except.error (getAuthErrorMessage storeErrorCode), ⟨s1.docs, 0⟩) ∧
    getAuthErrorMessage storeErrorCode = defaultAuthMessage :=
  C5_store_write_single_attempt fb0 s1 0 0 rfl rfl

/-- C6: the provider-code-to-message mapping is total — every code yields a
nonempty human-readable message, any code outside the enumerated cases yields
the catch-all default — and each failing sign-in, sign-up and sign-out
surfaces the mapped message to the caller. -/
theorem C6_error_mapping_total :
    ∀ (code : String),
      getAuthErrorMessage code ≠ "" ∧
      (code ∉ enumeratedAuthCodes → getAuthErrorMessage code = defaultAuthMessage) ∧
      (∀ (s : Firestore) (now : Nat) (dn : String) (p : Option FirebaseUser)
        (st : SessionState),
        signInWithGoogle (Except.error code) s now =
          (Except.error (getAuthErrorMessage code), s) ∧
        signInWithEmail (Except.error code) s now =
          (Except.error (getAuthErrorMessage code), s) ∧
        signUpWithEmail (Except.error code) dn s now =
          (Except.error (getAuthErrorMessage code), s) ∧
        ctxSignOut true p st =
          (Except.error (getAuthErrorMessage "auth/network-request-failed"), p, [], st)) := by
  intro code
  refine ⟨(getAuthErrorMessage_total code).1, (getAuthErrorMessage_total code).2, ?_⟩
  intro s now dn p st
  exact ⟨rfl, rfl, rfl, rfl⟩

/-- Witness for C6 at a concrete unenumerated code, exercising the catch-all
default branch. -/
theorem C6_error_mapping_total_witness :
    getAuthErrorMessage "auth/quota-exceeded" = defaultAuthMessage ∧
    getAuthErrorMessage "auth/quota-exceeded" ≠ "" :=
  ⟨(C6_error_mapping_total "auth/quota-exceeded").2.1 (by decide),
   (C6_error_mapping_total "auth/quota-exceeded").1⟩

/-- C7: `signOut` either succeeds — leaving the session with no current
Identity, the provider credential cleared, and a subsequent synchronous read
returning none — or fails on a provider-side failure, in which case the prior
session state, provider credential and event stream are all preserved
unchanged (no partial sign-out). -/
theorem C7_signOut_total_or_preserved :
    ∀ (p : Option FirebaseUser) (st : SessionState) (now : Nat),
      (ctxSignOut false p st).1 = Except.ok () ∧
      (ctxSignOut false p st).2.1 = none ∧
      (ctxSignOut false p st).2.2.2.user = none ∧
      (ctxSignOut false p st).2.2.2.loading = st.loading ∧
      getCurrentUser (ctxSignOut false p st).2.1 now = none ∧
      ctxSignOut true p st =
        (Except.error (getAuthErrorMessage "auth/network-request-failed"), p, [], st) := by
  intro p st now
  cases p <;> exact ⟨rfl, rfl, rfl, rfl, rfl, rfl⟩

/-- C8: calling `signOut` when the session is already unauthenticated is
idempotent — it completes without error, the provider stays credential-free,
no provider change event fires (so no subscriber notification), and the
session state is returned exactly unchanged. -/
theorem C8_signOut_idempotent_when_unauthenticated
    (st : SessionState) (h : st.user = none) :
    ctxSignOut false none st = (Except.ok (), none, [], st) := by
  obtain ⟨u, l⟩ := st
  cases h
  rfl

/-- Witness for C8 at the concrete unauthenticated session state. -/
theorem C8_signOut_idempotent_when_unauthenticated_witness :
    ctxSignOut false none ⟨none, false⟩ = (Except.ok (), none, [], ⟨none, false⟩) :=
  C8_signOut_idempotent_when_unauthenticated ⟨none, false⟩ rfl

/-- Once the listener is unsubscribed it stays unsubscribed, the machine
enqueues no new resolution, and every late delivery consumes exactly one
pending resolution: the sum of late deliveries and pending resolutions is a
step invariant. -/
theorem subStep_inactive (st : SubState) (e : SubEv) (h : st.active = false) :
    (subStep st e).active = false ∧
    (subStep st e).afterUnsub.length + (subStep st e).pending.length =
      st.afterUnsub.length + st.pending.length := by
  cases e with
  | fire fb => cases fb <;> simp [subStep, h]
  | unsub => simp [subStep]
  | complete =>
    cases hp : st.pending with
    | nil => simp [subStep, hp, h]
    | cons fb rest =>
      simp only [subStep, hp]
      cases hc : convertFirebaseUserToUser fb st.store st.now with
      | mk res s2 =>
        cases res <;> simp [deliver, h, hp] <;> omega

/-- C9 counterexample: a subscriber can receive a notification after its
unsubscribe call returns.  The provider fires with a credential while the
listener is live, the profile resolution is still in flight when unsubscribe
is called, and when it completes the callback is invoked anyway — refuting
the claim that no notification ever arrives after unsubscribe. -/
theorem C9_late_delivery_counterexample :
    (subRun [SubEv.fire (some fb0), SubEv.unsub, SubEv.complete] subInit).afterUnsub =
      [some u1] ∧
    (subRun [SubEv.fire (some fb0), SubEv.unsub, SubEv.complete] subInit).afterUnsub ≠
      [] := by
  exact ⟨rfl, by decide⟩

/-- C9 (amended): after the unsubscribe call returns, provider
credential-change events produce no notification and no new profile
resolution is enqueued; only resolutions already in flight at unsubscribe
time can still invoke the callback, so the number of post-unsubscribe
notifications never exceeds the number of resolutions then pending. -/
theorem C9_late_deliveries_bounded_by_pending
    (evs : List SubEv) (st : SubState) (h : st.active = false) :
    (subRun evs st).active = false ∧
    (subRun evs st).afterUnsub.length + (subRun evs st).pending.length =
      st.afterUnsub.length + st.pending.length ∧
    (subRun evs st).afterUnsub.length ≤ st.afterUnsub.length + st.pending.length := by
  induction evs generalizing st with
  | nil => exact ⟨h, rfl, Nat.le_add_right _ _⟩
  | cons e rest ih =>
    have hs := subStep_inactive st e h
    have hr := ih (subStep st e) hs.1
    refine ⟨hr.1, ?_, ?_⟩
    · calc (subRun (e :: rest) st).afterUnsub.length +
            (subRun (e :: rest) st).pending.length
          = (subStep st e).afterUnsub.length + (subStep st e).pending.length := hr.2.1
        _ = st.afterUnsub.length + st.pending.length := hs.2
    · calc (subRun (e :: rest) st).afterUnsub.length
          ≤ (subStep st e).afterUnsub.length + (subStep st e).pending.length := hr.2.2
        _ = st.afterUnsub.length + st.pending.length := hs.2

/-- Witness for the amended C9: one resolution pending at unsubscribe time, a
post-unsubscribe provider event and the completion — the machine stays
unsubscribed and delivers at most the one pending notification. -/
theorem C9_late_deliveries_bounded_by_pending_witness :
    (subRun [SubEv.fire (some fb0), SubEv.complete]
        ⟨false, [fb0], [], [], sHasU1, 0⟩).active = false ∧
    (subRun [SubEv.fire (some fb0), SubEv.complete]
        ⟨false, [fb0], [], [], sHasU1, 0⟩).afterUnsub.length +
      (subRun [SubEv.fire (some fb0), SubEv.complete]
        ⟨false, [fb0], [], [], sHasU1, 0⟩).pending.length =
      (List.length ([] : List (Option User))) + (List.length [fb0]) ∧
    (subRun [SubEv.fire (some fb0), SubEv.complete]
        ⟨false, [fb0], [], [], sHasU1, 0⟩).afterUnsub.length ≤
      (List.length ([] : List (Option User))) + (List.length [fb0]) :=
  C9_late_deliveries_bounded_by_pending [SubEv.fire (some fb0), SubEv.complete]
    ⟨false, [fb0], [], [], sHasU1, 0⟩ rfl

end AmazeAI
